import Mathlib

/-!
Verification of the URL-shortener click-analytics core against its
natural-language specification.

The development is a shallow embedding of the TypeScript sources:
  * src/app/api/redirect/[shortCode]/route.ts  (redirect endpoint GET and
    the transactional recordClickWithProperAnalytics)
  * src/lib/analytics.ts  (createShortUrl, getUrlData, getAnalyticsData,
    subscribeToAnalytics repair step)
  * src/lib/real-time-tracker.ts  (RealTimeClickTracker.sendToFirestore and
    the retrying subscribeToAnalytics variant embedded in that file)
  * the shorten endpoint POST handler (isValidUrl, generateShortCode, POST)

Firestore timestamps are modelled as naturals (milliseconds); the document
store as association lists keyed by short code.  Backend success or failure
of each independent Firestore primitive (getDoc, setDoc, updateDoc,
transaction commit) is passed in explicitly as a boolean oracle, because the
JavaScript code observes those outcomes only through thrown exceptions.
Fields that the code reads defensively (clicks, totalClicks, expiresAt) are
modelled as optional, matching documents where the field may be absent.
-/

namespace UrlShortener

/-- A click event as assembled by the redirect route's transaction body
(id, sessionId are a timestamp-plus-random string built by the caller).
The route's event also carries a constant realTime flag and the tracker's
carries viewport data; neither influences counters or lookups. -/
structure ClickEvent where
  id : String
  timestamp : Nat
  userAgent : String
  referer : String
  ip : String
  sessionId : String
  clickSource : String
deriving DecidableEq, Repr

/-- The urls collection document (interface UrlData in the sources).
clicks and expiresAt are optional because the code guards their reads
(clicks via a zero default, expiresAt via a truthiness test). -/
structure UrlData where
  originalUrl : String
  shortCode : String
  createdAt : Nat
  clicks : Option Nat
  isActive : Bool
  expiresAt : Option Nat
  lastClickAt : Option Nat
deriving DecidableEq, Repr

/-- The analytics collection document (interface AnalyticsData).
totalClicks is optional: the repair paths test whether the stored field is
a number.  lastSessionId is written only by the real-time tracker. -/
structure AnalyticsData where
  shortCode : String
  totalClicks : Option Nat
  createdAt : Nat
  lastClickAt : Option Nat
  clickEvents : List ClickEvent
  urlClicks : Option Nat
  lastSessionId : Option String
deriving DecidableEq, Repr

/-- The two Firestore collections the system uses, keyed by short code. -/
structure Store where
  urls : List (String × UrlData)
  analytics : List (String × AnalyticsData)
deriving DecidableEq, Repr

/-- Document lookup in a collection (Firestore getDoc / transaction.get). -/
def alookup {β : Type} (l : List (String × β)) (k : String) : Option β :=
  match l with
  | [] => none
  | (k', v) :: t => if k' = k then some v else alookup t k

/-- Document write in a collection (Firestore set/update at a key). -/
def aset {β : Type} (l : List (String × β)) (k : String) (v : β) :
    List (String × β) :=
  match l with
  | [] => [(k, v)]
  | (k', v') :: t => if k' = k then (k, v) :: t else (k', v') :: aset t k v

theorem alookup_aset_self {β : Type} (l : List (String × β)) (k : String)
    (v : β) : alookup (aset l k v) k = some v := by
  induction l with
  | nil => simp [aset, alookup]
  | cons h t ih =>
    obtain ⟨k', v'⟩ := h
    by_cases hk : k' = k
    · simp [aset, alookup, hk]
    · simp [aset, alookup, hk, ih]

theorem alookup_aset_ne {β : Type} (l : List (String × β)) (k k' : String)
    (v : β) (h : k' ≠ k) : alookup (aset l k v) k' = alookup l k' := by
  have hne : k ≠ k' := fun hh => h hh.symm
  induction l with
  | nil => simp [aset, alookup, hne]
  | cons p t ih =>
    obtain ⟨k0, v0⟩ := p
    by_cases hk : k0 = k
    · subst hk
      simp [aset, alookup, hne]
    · simp only [aset, if_neg hk]
      by_cases hk' : k0 = k'
      · simp [alookup, hk']
      · simp [alookup, hk', ih]

/-- Firestore arrayUnion: appends the element unless an equal element is
already present. -/
def arrayUnion (l : List ClickEvent) (e : ClickEvent) : List ClickEvent :=
  if e ∈ l then l else l ++ [e]

/-- Helper for strStartsWith: does the first character list lead the
second one? -/
def beginsWith : List Char → List Char → Bool
  | [], _ => true
  | _ :: _, [] => false
  | c :: cs, d :: ds => (c = d) && beginsWith cs ds

/-- JS String.prototype.startsWith, modelled over character lists so that
it evaluates inside the kernel. -/
def strStartsWith (s pat : String) : Bool :=
  beginsWith pat.data s.data

/-- route.ts lines 44-47: prepend https:// when the stored URL starts with
neither http:// nor https://. -/
def normalizeRedirectUrl (u : String) : String :=
  if !(strStartsWith u ("http://")) && !(strStartsWith u ("https://")) then
    ("https://") ++ u
  else
    u

example : normalizeRedirectUrl ("example.com/path") = ("https://example.com/path") := by decide
example : normalizeRedirectUrl ("https://a.b") = ("https://a.b") := by decide

/-- JS String.prototype.substring(0, n), over character lists so that it
evaluates inside the kernel. -/
def jsSubstringTo (s : String) (n : Nat) : String :=
  String.mk (s.data.take n)

/-- Whitespace as stripped by JS String.prototype.trim (ASCII fragment). -/
def isJsSpace (c : Char) : Bool :=
  c = (' ') || c = ('\t') || c = ('\n') || c = ('\r')

/-- JS String.prototype.trim, over character lists. -/
def jsTrim (s : String) : String :=
  String.mk (((s.data.dropWhile isJsSpace).reverse.dropWhile isJsSpace).reverse)

/-- First entry of a comma-separated header value: JS split(",")[0]. -/
def firstCommaField (s : String) : String :=
  String.mk (s.data.takeWhile (fun c => !(c = (','))))

/-- The click event built inside the redirect route's transaction body
(route.ts lines 93-102): id and sessionId are Date.now() plus a random
suffix (passed in as ridA, ridB), timestamp is the server time, user agent
and referer are truncated to 200 characters and the IP to 15. -/
def mkClickEvent (now : Nat) (ridA ridB : String) (ua ref ip : String) :
    ClickEvent :=
  { id := toString now ++ ("-") ++ ridA
    timestamp := now
    userAgent := jsSubstringTo ua 200
    referer := jsSubstringTo ref 200
    ip := jsSubstringTo ip 15
    sessionId := toString now ++ ("-") ++ ridB
    clickSource := ("direct") }

/-- The body of the runTransaction call in recordClickWithProperAnalytics
(route.ts lines 79-140).  Reads both documents, throws (and therefore
commits nothing) when the urls document is absent; otherwise buffers an
increment of urls.clicks, and either an increment-and-append on the
analytics document or its creation seeded with totalClicks 1 and the event
as sole entry.  Firestore commits all buffered writes together or none. -/
def recordClickTxn (now : Nat) (ev : ClickEvent) (code : String)
    (s : Store) : Except String Store :=
  match alookup s.urls code with
  | none => Except.error ("URL document does not exist")
  | some u =>
    let currentClicks := u.clicks.getD 0
    let newClickCount := currentClicks + 1
    let u' : UrlData :=
      { u with clicks := some (currentClicks + 1), lastClickAt := some now }
    match alookup s.analytics code with
    | some a =>
      let a' : AnalyticsData :=
        { a with
          totalClicks := some (a.totalClicks.getD 0 + 1)
          lastClickAt := some now
          clickEvents := arrayUnion a.clickEvents ev
          urlClicks := some newClickCount }
      Except.ok
        { urls := aset s.urls code u'
          analytics := aset s.analytics code a' }
    | none =>
      let fresh : AnalyticsData :=
        { shortCode := code
          totalClicks := some 1
          createdAt := now
          lastClickAt := some now
          clickEvents := [ev]
          urlClicks := some newClickCount
          lastSessionId := none }
      Except.ok
        { urls := aset s.urls code u'
          analytics := aset s.analytics code fresh }

/-- recordClickWithProperAnalytics (route.ts lines 71-147): runs the
transaction and swallows every failure, whether the transaction body threw
(missing mapping) or the backend refused the commit (commitOk false).  The
caller always gets back a store and never an exception. -/
def recordClickWithProperAnalytics (now : Nat) (ev : ClickEvent)
    (code : String) (s : Store) (commitOk : Bool) : Store :=
  if commitOk then
    match recordClickTxn now ev code s with
    | Except.ok s' => s'
    | Except.error _ => s
  else s

/-- RealTimeClickTracker.sendToFirestore (real-time-tracker.ts lines
59-76): a Promise.all of two independent updateDoc calls, one per
collection.  Each update lands exactly when its oracle is true and its
document exists (updateDoc rejects on a missing document); a rejection of
one call does not undo the other, and the combined promise rejects when
either call failed. -/
def sendToFirestore (now : Nat) (ev : ClickEvent) (code : String)
    (s : Store) (urlOk anOk : Bool) : Store × Except String Unit :=
  let urlDoc := alookup s.urls code
  let anDoc := alookup s.analytics code
  let urls' :=
    match urlDoc with
    | some u =>
      if urlOk then
        aset s.urls code
          { u with clicks := some (u.clicks.getD 0 + 1), lastClickAt := some now }
      else s.urls
    | none => s.urls
  let analytics' :=
    match anDoc with
    | some a =>
      if anOk then
        aset s.analytics code
          { a with
            totalClicks := some (a.totalClicks.getD 0 + 1)
            lastClickAt := some now
            clickEvents := arrayUnion a.clickEvents ev
            lastSessionId := some ev.sessionId }
      else s.analytics
    | none => s.analytics
  let failed := !urlOk || urlDoc.isNone || !anOk || anDoc.isNone
  ({ urls := urls', analytics := analytics' },
   if failed then Except.error ("updateDoc failed") else Except.ok ())

/-- The JSON response of the redirect endpoint: HTTP status plus the error
or redirectUrl payload fields. -/
structure RedirectResponse where
  status : Nat
  error : Option String
  redirectUrl : Option String
deriving DecidableEq, Repr

/-- The expiry-or-inactive test of route.ts line 32: not isActive, or
expiresAt present and strictly before the current time. -/
def expiredOrInactive (now : Nat) (u : UrlData) : Bool :=
  !u.isActive ||
    (match u.expiresAt with
     | some e => decide (e < now)
     | none => false)

/-- The redirect endpoint GET handler (route.ts lines 14-69).  The request
headers arrive already defaulted to the empty string (the source applies
an or-empty to each headers.get).  readOk is the outcome of the initial
getDoc: when it throws, the surrounding try lands in the catch and the
handler answers 500 Internal server error.  ridA and ridB stand for the
two Math.random() suffixes and commitOk for the backend outcome of the
analytics transaction, which never influences the response. -/
def GETredirect (now : Nat) (s : Store) (code : String)
    (ua referer fwd : String) (ridA ridB : String)
    (readOk commitOk : Bool) : RedirectResponse × Store :=
  if !readOk then
    ({ status := 500, error := some ("Internal server error"),
       redirectUrl := none }, s)
  else
    match alookup s.urls code with
    | none =>
      ({ status := 404, error := some ("Short code not found"),
         redirectUrl := none }, s)
    | some u =>
      if expiredOrInactive now u then
        ({ status := 404, error := some ("Short code expired"),
           redirectUrl := none }, s)
      else if u.originalUrl = ("") then
        ({ status := 500, error := some ("Invalid URL data"),
           redirectUrl := none }, s)
      else
        let redirectUrl := normalizeRedirectUrl u.originalUrl
        let ip := jsTrim (firstCommaField fwd)
        let ev := mkClickEvent now ridA ridB ua referer ip
        let s' := recordClickWithProperAnalytics now ev code s commitOk
        ({ status := 200, error := none, redirectUrl := some redirectUrl }, s')

/-- Thirty days in milliseconds: the expiry horizon that
expiresAt.setDate(getDate() + 30) adds to the creation instant. -/
def thirtyDaysMs : Nat := 30 * 86400000

/-- The urls document written by createShortUrl (analytics.ts lines
60-67). -/
def mkUrlDoc (now : Nat) (code url : String) : UrlData :=
  { originalUrl := url
    shortCode := code
    createdAt := now
    clicks := some 0
    isActive := true
    expiresAt := some (now + thirtyDaysMs)
    lastClickAt := none }

/-- The analytics document written by createShortUrl (analytics.ts lines
69-75). -/
def mkAnalyticsDoc (now : Nat) (code : String) : AnalyticsData :=
  { shortCode := code
    totalClicks := some 0
    createdAt := now
    lastClickAt := none
    clickEvents := []
    urlClicks := some 0
    lastSessionId := none }

/-- createShortUrl (analytics.ts lines 50-85): a Promise.all of two
independent setDoc calls.  Each write lands exactly when its oracle is
true; a rejection of one does not undo the other, and the function
rethrows when either write failed. -/
def createShortUrl (now : Nat) (code url : String) (s : Store)
    (urlWriteOk anWriteOk : Bool) : Store × Except String Unit :=
  let urls' :=
    if urlWriteOk then aset s.urls code (mkUrlDoc now code url) else s.urls
  let analytics' :=
    if anWriteOk then aset s.analytics code (mkAnalyticsDoc now code)
    else s.analytics
  ({ urls := urls', analytics := analytics' },
   if urlWriteOk && anWriteOk then Except.ok ()
   else Except.error ("setDoc failed"))

/-- The body of getUrlData (analytics.ts lines 88-109) before its catch:
a failing getDoc is an exception, an absent, expired or inactive document
yields null, otherwise the document itself.  Note the source tests expiry
before isActive here, the reverse of the redirect route. -/
def getUrlDataBody (now : Nat) (code : String) (s : Store)
    (readOk : Bool) : Except String (Option UrlData) :=
  if !readOk then Except.error ("getDoc failed")
  else
    match alookup s.urls code with
    | none => Except.ok none
    | some d =>
      if (match d.expiresAt with
          | some e => decide (e < now)
          | none => false) || !d.isActive then
        Except.ok none
      else Except.ok (some d)

/-- getUrlData with its catch: every internal exception becomes null. -/
def getUrlData (now : Nat) (code : String) (s : Store)
    (readOk : Bool) : Option UrlData :=
  match getUrlDataBody now code s readOk with
  | Except.error _ => none
  | Except.ok v => v

/-- getAnalyticsData (analytics.ts lines 112-164).  When the analytics
document is absent it is recreated from the urls document (seeded with the
mapping's click counter and no events); when its totalClicks field is not
a number, a transaction rewrites totalClicks to the stored event count and
the patched document is returned; a numeric totalClicks is returned as
stored.  Any failing read or write lands in the catch and yields null with
no state change (anReadOk, urlReadOk, writeOk are the oracles of the
analytics read, the urls read and the corrective write). -/
def getAnalyticsData (_now : Nat) (code : String) (s : Store)
    (anReadOk urlReadOk writeOk : Bool) :
    Option AnalyticsData × Store :=
  if !anReadOk then (none, s)
  else
    match alookup s.analytics code with
    | none =>
      if !urlReadOk then (none, s)
      else
        match alookup s.urls code with
        | some u =>
          let fresh : AnalyticsData :=
            { shortCode := code
              totalClicks := some (u.clicks.getD 0)
              createdAt := u.createdAt
              lastClickAt := none
              clickEvents := []
              urlClicks := some (u.clicks.getD 0)
              lastSessionId := none }
          if !writeOk then (none, s)
          else (some fresh, { s with analytics := aset s.analytics code fresh })
        | none => (none, s)
    | some a =>
      match a.totalClicks with
      | none =>
        let clickCount := a.clickEvents.length
        if !writeOk then (none, s)
        else
          let a' : AnalyticsData := { a with totalClicks := some clickCount }
          (some a', { s with analytics := aset s.analytics code a' })
      | some _ => (some a, s)

/-- The corrective step of the analytics.ts subscribeToAnalytics snapshot
handler (lines 196-214) on an existing document: when totalClicks is not a
number or is zero while events exist, a transaction rewrites it to the
stored event count.  Returns the document handed to the callback and
whether a corrective write was issued (a failed transaction is swallowed
and the document passed through unpatched). -/
def subscribeSnapshotFix (a : AnalyticsData) (txnOk : Bool) :
    AnalyticsData × Bool :=
  let clickCount := a.clickEvents.length
  if (decide (a.totalClicks = none) || decide (a.totalClicks = some 0)) &&
      decide (clickCount > 0) then
    if txnOk then ({ a with totalClicks := some clickCount }, true)
    else (a, false)
  else (a, false)

/-!
Event model of the Live Subscription Feed, embedding the retrying
subscribeToAnalytics of real-time-tracker.ts (lines 244-307 of that file).
The caller subscribes once and receives the unsubscribe handle of listener
0.  The environment then drives the system: Firestore delivers snapshots
or an error to a listener, the two-second retry timer fires, or the caller
invokes its unsubscribe handle.  The snapshot handler fires the callback
on every delivery and, on a snapshot with pending local writes, registers
a one-shot server-confirmation listener; the error handler fires the
callback with null and schedules a resubscription whose fresh unsubscribe
handle is discarded by setTimeout.  Per Firestore semantics an errored
listener receives no further events.
-/

/-- Listener bookkeeping of one subscribeToAnalytics call tree: ids of the
live main and confirmation listeners, pending retry timers, whether the
caller has already invoked its unsubscribe handle, and how many callback
invocations happened in total and after that point. -/
structure FeedState where
  mains : List Nat
  confirms : List Nat
  retries : Nat
  nextId : Nat
  unsubbed : Bool
  fired : Nat
  firedAfterUnsub : Nat
deriving DecidableEq, Repr

/-- One callback invocation (onUpdate with data or null). -/
def fireCallback (s : FeedState) : FeedState :=
  { s with
    fired := s.fired + 1
    firedAfterUnsub :=
      if s.unsubbed then s.firedAfterUnsub + 1 else s.firedAfterUnsub }

/-- Environment and caller actions driving the feed. -/
inductive FeedAction where
  | snapshotMain (id : Nat) (hasData pending : Bool)
  | snapshotConfirm (id : Nat) (hasData pending : Bool)
  | errorMain (id : Nat)
  | retryTimer
  | unsubscribeHandle
deriving DecidableEq, Repr

/-- One step of the feed.  snapshotMain: the handler fires the callback
(with the document or null) and, when the document exists with pending
writes, registers a fresh confirmation listener.  snapshotConfirm: the
nested listener fires the callback and removes itself once a
server-confirmed existing document arrives.  errorMain: the error handler
fires the callback with null and schedules a retry; the errored listener
is detached.  retryTimer: a scheduled retry re-runs subscribeToAnalytics,
registering a fresh main listener whose unsubscribe handle is discarded.
unsubscribeHandle: the caller invokes the unsubscribe returned by the
original call, detaching listener 0 only. -/
def stepFeed (s : FeedState) (a : FeedAction) : FeedState :=
  match a with
  | FeedAction.snapshotMain id hasData pending =>
    if id ∈ s.mains then
      let s1 := fireCallback s
      if hasData && pending then
        { s1 with confirms := s1.confirms ++ [s1.nextId], nextId := s1.nextId + 1 }
      else s1
    else s
  | FeedAction.snapshotConfirm id hasData pending =>
    if id ∈ s.confirms then
      if hasData && !pending then
        { fireCallback s with confirms := s.confirms.erase id }
      else s
    else s
  | FeedAction.errorMain id =>
    if id ∈ s.mains then
      { fireCallback s with
        mains := s.mains.erase id
        retries := s.retries + 1 }
    else s
  | FeedAction.retryTimer =>
    match s.retries with
    | 0 => s
    | r + 1 =>
      { s with retries := r, mains := s.mains ++ [s.nextId], nextId := s.nextId + 1 }
  | FeedAction.unsubscribeHandle =>
    { s with unsubbed := true, mains := s.mains.erase 0 }

/-- State right after the caller's single subscribeToAnalytics call:
main listener 0 is live and its unsubscribe handle is held by the
caller. -/
def initFeed : FeedState :=
  { mains := [0], confirms := [], retries := 0, nextId := 1,
    unsubbed := false, fired := 0, firedAfterUnsub := 0 }

/-- Run the feed from the freshly subscribed state. -/
def runFeed (acts : List FeedAction) : FeedState :=
  List.foldl stepFeed initFeed acts

/-!
Model of the platform URL constructor as consumed by the shorten
endpoint's isValidUrl.  Per the WHATWG URL standard the scheme is an ASCII
letter followed by letters, digits, plus, minus or dot, up to a colon, and
is lowercased; for the special schemes http and https the parser then
skips any run of slashes or backslashes and requires a nonempty host.
isValidUrl only distinguishes a successful parse with protocol http: or
https: from everything else, so non-special schemes need no further
detail here.
-/

/-- First character of a URL scheme: an ASCII letter. -/
def isSchemeStartChar (c : Char) : Bool := c.isAlpha

/-- Subsequent characters of a URL scheme. -/
def isSchemeChar (c : Char) : Bool :=
  c.isAlphanum || c = ('+') || c = ('-') || c = ('.')

/-- Scan scheme characters up to the terminating colon, returning the
scheme read so far and the remainder. -/
def schemeScan : List Char → List Char → Option (List Char × List Char)
  | [], _ => none
  | c :: rest, acc =>
    if c = (':') then some (acc.reverse, rest)
    else if isSchemeChar c then schemeScan rest (c :: acc)
    else none

/-- Split a candidate URL into its scheme (not yet lowercased) and the
part after the colon; none when the string has no scheme. -/
def parseScheme (s : String) : Option (List Char × List Char) :=
  match s.data with
  | [] => none
  | c :: rest =>
    if isSchemeStartChar c then schemeScan rest [c] else none

/-- Lowercase the ASCII characters of a scheme. -/
def lowerChars (cs : List Char) : List Char := cs.map Char.toLower

/-- The host of a special-scheme URL: skip the run of slashes and
backslashes after the colon, then read up to a path, query or fragment
delimiter. -/
def hostPart (cs : List Char) : List Char :=
  (cs.dropWhile (fun c => c = ('/') || c = ('\\'))).takeWhile
    (fun c => !(c = ('/') || c = ('?') || c = ('#')))

/-- The protocol property of a successfully constructed URL object, or
none when the constructor throws.  For http and https an empty host is a
constructor failure. -/
def jsUrlProtocol (s : String) : Option String :=
  match parseScheme s with
  | none => none
  | some (sch, rest) =>
    let low := lowerChars sch
    if low = ("http").data || low = ("https").data then
      if (hostPart rest).isEmpty then none
      else some (String.mk (low ++ [(':')]))
    else some (String.mk (low ++ [(':')]))

/-- isValidUrl of the shorten route (part_001 lines 13-20): the string
constructs a URL object whose protocol is http: or https:. -/
def isValidUrl (s : String) : Bool :=
  match jsUrlProtocol s with
  | none => false
  | some p => p = ("http:") || p = ("https:")

example : isValidUrl ("https://example.com") = true := by decide
example : isValidUrl ("HTTP://example.com") = true := by decide
example : isValidUrl ("example.com/path") = false := by decide
example : isValidUrl ("") = false := by decide
example : isValidUrl ("ftp://example.com") = false := by decide

/-- The JSON response of the shorten endpoint. -/
structure ShortenResponse where
  status : Nat
  error : Option String
  shortCode : Option String
  originalUrl : Option String
deriving DecidableEq, Repr

/-- The url field of the shorten request body as the handler sees it:
absent (or of a non-string type), or a string. -/
inductive ShortenBody where
  | missing
  | notAString
  | urlStr (u : String)
deriving DecidableEq, Repr

/-- The shorten endpoint POST handler (part_001 lines 22-81).  A missing,
non-string or empty url answers 400 URL is required; a url failing
isValidUrl answers 400 Invalid URL format; both before any write.
Otherwise createShortUrl runs with the generated code (the random
generator's output is passed in) and a failure of either write is caught
as a 500 while a success answers the code and original url. -/
def POSTshorten (now : Nat) (generated : String) (body : ShortenBody)
    (s : Store) (urlWriteOk anWriteOk : Bool) : ShortenResponse × Store :=
  match body with
  | ShortenBody.missing =>
    ({ status := 400, error := some ("URL is required"),
       shortCode := none, originalUrl := none }, s)
  | ShortenBody.notAString =>
    ({ status := 400, error := some ("URL is required"),
       shortCode := none, originalUrl := none }, s)
  | ShortenBody.urlStr u =>
    if u = ("") then
      ({ status := 400, error := some ("URL is required"),
         shortCode := none, originalUrl := none }, s)
    else if !(isValidUrl u) then
      ({ status := 400, error := some ("Invalid URL format"),
         shortCode := none, originalUrl := none }, s)
    else
      let (s', outcome) := createShortUrl now generated u s urlWriteOk anWriteOk
      match outcome with
      | Except.error _ =>
        ({ status := 500, error := some ("Internal server error"),
           shortCode := none, originalUrl := none }, s')
      | Except.ok _ =>
        ({ status := 200, error := none,
           shortCode := some generated, originalUrl := some u }, s')

/-! Concrete fixtures used by counterexamples and witnesses. -/

/-- A click event as recorded once for the abc short code. -/
def exEvent : ClickEvent :=
  { id := ("e1"), timestamp := 5, userAgent := ("ua"), referer := ("ref"),
    ip := ("1.2.3.4"), sessionId := ("s1"), clickSource := ("direct") }

/-- A second, distinct click event. -/
def exEvent2 : ClickEvent :=
  { id := ("e2"), timestamp := 6, userAgent := ("ua"), referer := ("ref"),
    ip := ("1.2.3.4"), sessionId := ("s2"), clickSource := ("direct") }

/-- A freshly created mapping for the abc short code. -/
def exUrlDoc : UrlData :=
  { originalUrl := ("https://example.com"), shortCode := ("abc"),
    createdAt := 0, clicks := some 0, isActive := true,
    expiresAt := some 1000000, lastClickAt := none }

/-- The matching freshly created ledger for the abc short code. -/
def exAnalyticsDoc : AnalyticsData :=
  { shortCode := ("abc"), totalClicks := some 0, createdAt := 0,
    lastClickAt := none, clickEvents := [], urlClicks := some 0,
    lastSessionId := none }

/-- A consistent store holding the abc mapping and its ledger. -/
def exStore : Store :=
  { urls := [(("abc"), exUrlDoc)], analytics := [(("abc"), exAnalyticsDoc)] }

/-- The abc mapping flagged inactive. -/
def exStoreInactive : Store :=
  { urls := [(("abc"), { exUrlDoc with isActive := false })],
    analytics := [(("abc"), exAnalyticsDoc)] }

/-- The abc mapping present with no ledger at all. -/
def exStoreNoLedger : Store :=
  { urls := [(("abc"), exUrlDoc)], analytics := [] }

/-- A ledger whose stored totalClicks (5) disagrees with its two recorded
click events. -/
def exDriftDoc : AnalyticsData :=
  { shortCode := ("abc"), totalClicks := some 5, createdAt := 0,
    lastClickAt := some 6, clickEvents := [exEvent, exEvent2],
    urlClicks := some 5, lastSessionId := none }

/-- A store holding the abc mapping and the drifted ledger. -/
def exStoreDrift : Store :=
  { urls := [(("abc"), exUrlDoc)], analytics := [(("abc"), exDriftDoc)] }

/-- A ledger whose stored totalClicks field is absent. -/
def exNoTotalDoc : AnalyticsData :=
  { shortCode := ("abc"), totalClicks := none, createdAt := 0,
    lastClickAt := some 6, clickEvents := [exEvent, exEvent2],
    urlClicks := none, lastSessionId := none }

/-- A store holding the abc mapping and the ledger lacking totalClicks. -/
def exStoreNoTotal : Store :=
  { urls := [(("abc"), exUrlDoc)], analytics := [(("abc"), exNoTotalDoc)] }

/-- A ledger whose stored totalClicks is 0 despite two recorded click
events. -/
def exZeroDoc : AnalyticsData :=
  { shortCode := ("abc"), totalClicks := some 0, createdAt := 0,
    lastClickAt := some 6, clickEvents := [exEvent, exEvent2],
    urlClicks := some 0, lastSessionId := none }

/-! Claim theorems. -/

/-- C8: for every stored originalUrl that does not start with http:// or
https://, resolve returns https:// prepended to the stored string; a URL
that already carries either scheme is returned unchanged. -/
theorem c8_theorem (u : String) :
    ((strStartsWith u ("http://") = false ∧
      strStartsWith u ("https://") = false) →
      normalizeRedirectUrl u = ("https://") ++ u) ∧
    ((strStartsWith u ("http://") = true ∨
      strStartsWith u ("https://") = true) →
      normalizeRedirectUrl u = u) := by
  constructor
  · rintro ⟨h1, h2⟩
    simp [normalizeRedirectUrl, h1, h2]
  · rintro (h | h) <;> simp [normalizeRedirectUrl, h]

/-- Witness for C8 at a scheme-less and at a scheme-carrying URL. -/
theorem c8_witness :
    normalizeRedirectUrl ("example.com/path") = ("https://example.com/path") ∧
    normalizeRedirectUrl ("http://example.com") = ("http://example.com") := by
  constructor
  · have h := (c8_theorem ("example.com/path")).1 (by decide)
    rw [h]
    decide
  · exact (c8_theorem ("http://example.com")).2 (Or.inl (by decide))

/-- C3: the redirect response (status, error payload and destination URL)
is the same whatever the outcome of the click-recording transaction, for
every store, short code and request metadata: click-recording failures are
swallowed and never reach the caller. -/
theorem c3_theorem (now : Nat) (s : Store)
    (code ua referer fwd ridA ridB : String) (readOk o1 o2 : Bool) :
    (GETredirect now s code ua referer fwd ridA ridB readOk o1).1 =
    (GETredirect now s code ua referer fwd ridA ridB readOk o2).1 := by
  unfold GETredirect
  cases readOk
  · rfl
  · cases alookup s.urls code with
    | none => rfl
    | some u =>
      by_cases h1 : expiredOrInactive now u
      · simp [h1]
      · by_cases h2 : u.originalUrl = ("")
        · simp [h1, h2]
        · simp [h1, h2]

theorem arrayUnion_of_not_mem (l : List ClickEvent) (e : ClickEvent)
    (h : e ∉ l) : arrayUnion l e = l ++ [e] := by
  simp [arrayUnion, h]

/-- C1 fails as stated: the real-time tracker's sendToFirestore records a
click against the existing abc short code through two independent updates,
and when the ledger update fails while the mapping update lands, the
mapping's clicks counter reads 1 while the ledger's totalClicks still
reads 0 — the three updates are not one atomic unit and the two counters
diverge. -/
theorem c1_counterexample :
    alookup exStore.urls ("abc") = some exUrlDoc ∧
    alookup exStore.analytics ("abc") = some exAnalyticsDoc ∧
    exUrlDoc.clicks.getD 0 = exAnalyticsDoc.totalClicks.getD 0 ∧
    (alookup (sendToFirestore 5 exEvent ("abc") exStore true false).1.urls
        ("abc")).map UrlData.clicks = some (some 1) ∧
    (alookup (sendToFirestore 5 exEvent ("abc") exStore true false).1.analytics
        ("abc")).map AnalyticsData.totalClicks = some (some 0) ∧
    (1 : Nat) ≠ 0 := by
  decide

/-- C1 amended: the transactional path of the redirect route does advance
both counters by exactly one and append the event as one atomic unit,
preserving the equality of the two counters; the real-time tracker's
sendToFirestore path, by contrast, issues two independent updates, and
when only the mapping update lands the mapping counter advances while the
ledger is untouched and the combined call reports failure. -/
theorem c1_theorem (now : Nat) (ev : ClickEvent) (code : String) (s : Store)
    (u : UrlData) (a : AnalyticsData)
    (hu : alookup s.urls code = some u)
    (ha : alookup s.analytics code = some a)
    (hev : ev ∉ a.clickEvents) :
    ((recordClickTxn now ev code s).toOption.bind
        (fun s' => alookup s'.urls code)).map UrlData.clicks =
      some (some (u.clicks.getD 0 + 1)) ∧
    ((recordClickTxn now ev code s).toOption.bind
        (fun s' => alookup s'.analytics code)).map AnalyticsData.totalClicks =
      some (some (a.totalClicks.getD 0 + 1)) ∧
    ((recordClickTxn now ev code s).toOption.bind
        (fun s' => alookup s'.analytics code)).map AnalyticsData.clickEvents =
      some (a.clickEvents ++ [ev]) ∧
    (u.clicks.getD 0 = a.totalClicks.getD 0 →
      ((recordClickTxn now ev code s).toOption.bind
          (fun s' => alookup s'.urls code)).map (fun d => d.clicks.getD 0) =
        ((recordClickTxn now ev code s).toOption.bind
          (fun s' => alookup s'.analytics code)).map
            (fun d => d.totalClicks.getD 0)) ∧
    (alookup (sendToFirestore now ev code s true false).1.urls code).map
        UrlData.clicks = some (some (u.clicks.getD 0 + 1)) ∧
    alookup (sendToFirestore now ev code s true false).1.analytics code =
      some a ∧
    (sendToFirestore now ev code s true false).2 =
      Except.error ("updateDoc failed") := by
  have htxn :
      recordClickTxn now ev code s =
        Except.ok
          { urls :=
              aset s.urls code
                { u with clicks := some (u.clicks.getD 0 + 1),
                         lastClickAt := some now }
            analytics :=
              aset s.analytics code
                { a with totalClicks := some (a.totalClicks.getD 0 + 1),
                         lastClickAt := some now,
                         clickEvents := a.clickEvents ++ [ev],
                         urlClicks := some (u.clicks.getD 0 + 1) } } := by
    unfold recordClickTxn
    rw [hu, ha]
    simp [arrayUnion_of_not_mem _ _ hev]
  have hsend1 :
      (sendToFirestore now ev code s true false).1 =
        { urls :=
            aset s.urls code
              { u with clicks := some (u.clicks.getD 0 + 1),
                       lastClickAt := some now }
          analytics := s.analytics } := by
    unfold sendToFirestore
    rw [hu, ha]
    simp
  have hsend2 :
      (sendToFirestore now ev code s true false).2 =
        Except.error ("updateDoc failed") := by
    unfold sendToFirestore
    rw [hu, ha]
    simp
  refine ⟨?_, ?_, ?_, ?_, ?_, ?_, hsend2⟩
  · rw [htxn]
    simp [Except.toOption, alookup_aset_self]
  · rw [htxn]
    simp [Except.toOption, alookup_aset_self]
  · rw [htxn]
    simp [Except.toOption, alookup_aset_self]
  · intro heq
    rw [htxn]
    simp [Except.toOption, alookup_aset_self, heq]
  · rw [hsend1]
    simp [alookup_aset_self]
  · rw [hsend1]
    exact ha

/-- Witness for C1 amended: the transaction on the consistent abc store
advances both counters from 0 to 1 and appends the single event. -/
theorem c1_witness :
    alookup exStore.urls ("abc") = some exUrlDoc ∧
    alookup exStore.analytics ("abc") = some exAnalyticsDoc ∧
    ((recordClickTxn 5 exEvent ("abc") exStore).toOption.bind
        (fun s' => alookup s'.urls ("abc"))).map UrlData.clicks =
      some (some 1) ∧
    ((recordClickTxn 5 exEvent ("abc") exStore).toOption.bind
        (fun s' => alookup s'.analytics ("abc"))).map
          AnalyticsData.totalClicks = some (some 1) := by
  have h := c1_theorem 5 exEvent ("abc") exStore exUrlDoc exAnalyticsDoc
    (by decide) (by decide) (by decide)
  exact ⟨by decide, by decide, h.1.trans (by decide), h.2.1.trans (by decide)⟩

/-- C4: with no mapping for the short code the transaction throws before
buffering any write, so the store is unchanged and no dangling ledger
appears; with a mapping but no ledger, the committed result holds the
ledger seeded with totalClicks 1 and the event as its only entry, next to
the incremented mapping. -/
theorem c4_theorem (now : Nat) (ev : ClickEvent) (code : String)
    (s : Store) :
    (alookup s.urls code = none →
      recordClickTxn now ev code s =
        Except.error ("URL document does not exist") ∧
      recordClickWithProperAnalytics now ev code s true = s) ∧
    (∀ u : UrlData, alookup s.urls code = some u →
      alookup s.analytics code = none →
      ((recordClickTxn now ev code s).toOption.bind
          (fun s' => alookup s'.analytics code)).map
            AnalyticsData.totalClicks = some (some 1) ∧
      ((recordClickTxn now ev code s).toOption.bind
          (fun s' => alookup s'.analytics code)).map
            AnalyticsData.clickEvents = some [ev] ∧
      ((recordClickTxn now ev code s).toOption.bind
          (fun s' => alookup s'.urls code)).map UrlData.clicks =
        some (some (u.clicks.getD 0 + 1))) := by
  constructor
  · intro h
    have htxn : recordClickTxn now ev code s =
        Except.error ("URL document does not exist") := by
      unfold recordClickTxn
      rw [h]
    refine ⟨htxn, ?_⟩
    unfold recordClickWithProperAnalytics
    rw [htxn]
    simp
  · intro u hu han
    have htxn :
        recordClickTxn now ev code s =
          Except.ok
            { urls :=
                aset s.urls code
                  { u with clicks := some (u.clicks.getD 0 + 1),
                           lastClickAt := some now }
              analytics :=
                aset s.analytics code
                  { shortCode := code, totalClicks := some 1,
                    createdAt := now, lastClickAt := some now,
                    clickEvents := [ev],
                    urlClicks := some (u.clicks.getD 0 + 1),
                    lastSessionId := none } } := by
      unfold recordClickTxn
      rw [hu, han]
    rw [htxn]
    simp [Except.toOption, alookup_aset_self]

/-- Witness for C4: recording against the absent zzz code leaves the
consistent store untouched, and recording against abc in the store whose
ledger is missing creates the seeded ledger. -/
theorem c4_witness :
    (alookup exStore.urls ("zzz") = none ∧
     recordClickTxn 5 exEvent ("zzz") exStore =
       Except.error ("URL document does not exist") ∧
     recordClickWithProperAnalytics 5 exEvent ("zzz") exStore true =
       exStore) ∧
    (alookup exStoreNoLedger.urls ("abc") = some exUrlDoc ∧
     alookup exStoreNoLedger.analytics ("abc") = none ∧
     ((recordClickTxn 5 exEvent ("abc") exStoreNoLedger).toOption.bind
         (fun s' => alookup s'.analytics ("abc"))).map
           AnalyticsData.totalClicks = some (some 1) ∧
     ((recordClickTxn 5 exEvent ("abc") exStoreNoLedger).toOption.bind
         (fun s' => alookup s'.analytics ("abc"))).map
           AnalyticsData.clickEvents = some [exEvent]) := by
  have h1 := (c4_theorem 5 exEvent ("zzz") exStore).1 (by decide)
  have h2 := (c4_theorem 5 exEvent ("abc") exStoreNoLedger).2 exUrlDoc
    (by decide) (by decide)
  exact ⟨⟨by decide, h1.1, h1.2⟩, by decide, by decide, h2.1, h2.2.1⟩

/-- C5 fails as stated: from the empty store, a registration whose ledger
write is refused by the backend still lands the mapping write, completing
(with a thrown error) in a state where the abc mapping is present with no
ledger at all — the two creation writes are not atomic. -/
theorem c5_counterexample :
    (createShortUrl 0 ("abc") ("https://example.com")
        { urls := [], analytics := [] } true false).2 =
      Except.error ("setDoc failed") ∧
    alookup (createShortUrl 0 ("abc") ("https://example.com")
        { urls := [], analytics := [] } true false).1.urls ("abc") =
      some (mkUrlDoc 0 ("abc") ("https://example.com")) ∧
    alookup (createShortUrl 0 ("abc") ("https://example.com")
        { urls := [], analytics := [] } true false).1.analytics ("abc") =
      none :=
  ⟨rfl, by decide, by decide⟩

/-- C5 amended: registration writes the mapping with clicks 0, isActive
true and expiresAt thirty days past creation, and the ledger with
totalClicks 0 and no events — but through two independent writes: when
both land the operation succeeds with both documents present, and when
exactly one write fails the other still lands, leaving the mapping
without its ledger (or the ledger without its mapping) while the
operation reports failure. -/
theorem c5_theorem (now : Nat) (code url : String) (s : Store) :
    createShortUrl now code url s true true =
      ({ urls := aset s.urls code (mkUrlDoc now code url),
         analytics := aset s.analytics code (mkAnalyticsDoc now code) },
       Except.ok ()) ∧
    (mkUrlDoc now code url).clicks = some 0 ∧
    (mkUrlDoc now code url).isActive = true ∧
    (mkUrlDoc now code url).expiresAt = some (now + 30 * 86400000) ∧
    (mkAnalyticsDoc now code).totalClicks = some 0 ∧
    (mkAnalyticsDoc now code).clickEvents = [] ∧
    createShortUrl now code url s true false =
      ({ urls := aset s.urls code (mkUrlDoc now code url),
         analytics := s.analytics }, Except.error ("setDoc failed")) ∧
    createShortUrl now code url s false true =
      ({ urls := s.urls,
         analytics := aset s.analytics code (mkAnalyticsDoc now code) },
       Except.error ("setDoc failed")) :=
  ⟨rfl, rfl, rfl, rfl, rfl, rfl, rfl, rfl⟩

/-- C2 fails as stated: expiry and inactivity do not collapse with
absence into one message.  An inactive mapping answers 404 with the
message Short code expired, an absent one answers 404 with Short code not
found, and neither message is the claimed short code not found or
expired. -/
theorem c2_counterexample :
    (GETredirect 5 exStoreInactive ("abc") ("") ("") ("") ("r") ("r")
        true true).1 =
      { status := 404, error := some ("Short code expired"),
        redirectUrl := none } ∧
    (GETredirect 5 exStore ("zzz") ("") ("") ("") ("r") ("r")
        true true).1 =
      { status := 404, error := some ("Short code not found"),
        redirectUrl := none } ∧
    (("Short code expired") : String) ≠
      ("short code not found or expired") ∧
    (("Short code not found") : String) ≠ ("Short code expired") := by
  refine ⟨by decide, by decide, by decide, by decide⟩

/-- C2 amended: when the initial read succeeds, the redirect endpoint
answers 404 exactly when the mapping is absent, inactive, or expired
(each of the latter two independently of the other flag); inactivity and
expiry collapse to the single message Short code expired, while absence
is reported with the distinct message Short code not found. -/
theorem c2_theorem (now : Nat) (s : Store)
    (code ua referer fwd ridA ridB : String) (readOk commitOk : Bool) :
    ((GETredirect now s code ua referer fwd ridA ridB readOk
        commitOk).1.status = 404 ↔
      (readOk = true ∧ (alookup s.urls code = none ∨
        ∃ u, alookup s.urls code = some u ∧
          expiredOrInactive now u = true))) ∧
    (readOk = true → alookup s.urls code = none →
      (GETredirect now s code ua referer fwd ridA ridB readOk
          commitOk).1.error = some ("Short code not found")) ∧
    (∀ u, readOk = true → alookup s.urls code = some u →
      expiredOrInactive now u = true →
      (GETredirect now s code ua referer fwd ridA ridB readOk
          commitOk).1.error = some ("Short code expired")) := by
  cases readOk with
  | false => simp [GETredirect]
  | true =>
    cases h : alookup s.urls code with
    | none => simp [GETredirect, h]
    | some u =>
      by_cases hexp : expiredOrInactive now u
      · simp [GETredirect, h, hexp]
      · by_cases ho : u.originalUrl = ("")
        · simp [GETredirect, h, hexp, ho]
        · simp [GETredirect, h, hexp, ho]

/-- Witness for C2 amended at the inactive abc store: the 404 branch and
the expired message. -/
theorem c2_witness :
    (GETredirect 5 exStoreInactive ("abc") ("") ("") ("") ("r") ("r")
        true true).1.status = 404 ∧
    (GETredirect 5 exStoreInactive ("abc") ("") ("") ("") ("r") ("r")
        true true).1.error = some ("Short code expired") := by
  have h := c2_theorem 5 exStoreInactive ("abc") ("") ("") ("") ("r") ("r")
    true true
  refine ⟨h.1.mpr ⟨rfl, Or.inr ⟨{ exUrlDoc with isActive := false },
    by decide, by decide⟩⟩, ?_⟩
  exact h.2.2 { exUrlDoc with isActive := false } rfl (by decide) (by decide)

/-- C6 fails as stated: the abc ledger stores totalClicks 5 against two
recorded click events, yet the ledger read returns the stored 5 as is and
performs no corrective write — the store after the read is unchanged.
Only a non-numeric totalClicks triggers the repair. -/
theorem c6_counterexample :
    exDriftDoc.totalClicks = some 5 ∧
    exDriftDoc.clickEvents.length = 2 ∧
    (5 : Nat) ≠ 2 ∧
    getAnalyticsData 7 ("abc") exStoreDrift true true true =
      (some exDriftDoc, exStoreDrift) := by
  refine ⟨rfl, rfl, by decide, by decide⟩

/-- C6 amended: getAnalyticsData repairs totalClicks to the stored event
count only when the stored field is not a number, and then returns the
patched document with the corrective write applied; a numeric totalClicks
is returned exactly as stored with no write, even when it disagrees with
the event count.  The subscription handler leaves any nonzero numeric
totalClicks untouched, and repairs an absent or zero totalClicks to the
stored event count when at least one event exists. -/
theorem c6_theorem (now : Nat) (code : String) (s : Store)
    (a : AnalyticsData) :
    (alookup s.analytics code = some a → a.totalClicks = none →
      getAnalyticsData now code s true true true =
        (some { a with totalClicks := some a.clickEvents.length },
         { urls := s.urls,
           analytics := aset s.analytics code
             { a with totalClicks := some a.clickEvents.length } })) ∧
    (∀ n, alookup s.analytics code = some a → a.totalClicks = some n →
      getAnalyticsData now code s true true true = (some a, s)) ∧
    (∀ n, a.totalClicks = some n → n ≠ 0 →
      subscribeSnapshotFix a true = (a, false)) ∧
    ((a.totalClicks = none ∨ a.totalClicks = some 0) →
      0 < a.clickEvents.length →
      subscribeSnapshotFix a true =
        ({ a with totalClicks := some a.clickEvents.length }, true)) := by
  refine ⟨?_, ?_, ?_, ?_⟩
  · intro h hn
    unfold getAnalyticsData
    rw [h]
    simp [hn]
  · intro n h hn
    unfold getAnalyticsData
    rw [h]
    simp [hn]
  · intro n hn hz
    unfold subscribeSnapshotFix
    rw [hn]
    simp [hz]
  · intro hz hlen
    unfold subscribeSnapshotFix
    cases hz with
    | inl h => simp [h, hlen]
    | inr h => simp [h, hlen]

/-- Witness for C6 amended: the ledger lacking totalClicks is repaired to
the event count 2, the drifted ledger passes through the subscription
handler unpatched, and the zero-count ledger with two events is repaired
by the subscription handler to totalClicks 2. -/
theorem c6_witness :
    alookup exStoreNoTotal.analytics ("abc") = some exNoTotalDoc ∧
    exNoTotalDoc.totalClicks = none ∧
    (getAnalyticsData 7 ("abc") exStoreNoTotal true true true).1.map
      AnalyticsData.totalClicks = some (some 2) ∧
    subscribeSnapshotFix exDriftDoc true = (exDriftDoc, false) ∧
    exZeroDoc.totalClicks = some 0 ∧
    0 < exZeroDoc.clickEvents.length ∧
    subscribeSnapshotFix exZeroDoc true =
      ({ exZeroDoc with totalClicks := some 2 }, true) := by
  have h1 := (c6_theorem 7 ("abc") exStoreNoTotal exNoTotalDoc).1
    (by decide) rfl
  have h3 := (c6_theorem 7 ("abc") exStoreDrift exDriftDoc).2.2.1 5 rfl
    (by decide)
  have h4 := (c6_theorem 7 ("abc") exStoreDrift exZeroDoc).2.2.2
    (Or.inr rfl) (by decide)
  refine ⟨by decide, rfl, ?_, h3, rfl, by decide, h4.trans (by decide)⟩
  rw [h1]
  decide

/-- C10: getUrlData and getAnalyticsData never throw: a failing backing
read raises internally, is caught, and null comes back with the store
untouched — the same null that an absent, inactive or expired record
produces, so a persistence failure is indistinguishable from NotFound at
this interface. -/
theorem c10_theorem (now : Nat) (code : String) (s : Store)
    (urlReadOk writeOk : Bool) :
    (getUrlDataBody now code s false = Except.error ("getDoc failed") ∧
     getUrlData now code s false = none) ∧
    (alookup s.urls code = none → getUrlData now code s true = none) ∧
    (∀ d, alookup s.urls code = some d → d.isActive = false →
      getUrlData now code s true = none) ∧
    (∀ d e, alookup s.urls code = some d → d.expiresAt = some e →
      e < now → getUrlData now code s true = none) ∧
    getAnalyticsData now code s false urlReadOk writeOk = (none, s) := by
  refine ⟨⟨rfl, rfl⟩, ?_, ?_, ?_, rfl⟩
  · intro h
    unfold getUrlData getUrlDataBody
    rw [h]
    rfl
  · intro d hd hia
    unfold getUrlData getUrlDataBody
    rw [hd]
    simp [hia]
  · intro d e hd he hlt
    unfold getUrlData getUrlDataBody
    rw [hd]
    simp [he, hlt]

/-- Witness for C10: a failed read, an absent code, an inactive mapping
and an expired mapping all come back as null, and a failed analytics read
leaves the store untouched. -/
theorem c10_witness :
    getUrlData 5 ("abc") exStore false = none ∧
    getUrlData 5 ("zzz") exStore true = none ∧
    getUrlData 5 ("abc") exStoreInactive true = none ∧
    getUrlData 2000000 ("abc") exStore true = none ∧
    getAnalyticsData 5 ("abc") exStore false true true = (none, exStore) := by
  have h := c10_theorem 5 ("abc") exStore true true
  have h2 := (c10_theorem 5 ("zzz") exStore true true).2.1 (by decide)
  have h3 := (c10_theorem 5 ("abc") exStoreInactive true true).2.2.1
    { exUrlDoc with isActive := false } (by decide) rfl
  have h4 := (c10_theorem 2000000 ("abc") exStore true true).2.2.2.1
    exUrlDoc 1000000 (by decide) rfl (by decide)
  exact ⟨h.1.2, h2, h3, h4, h.2.2.2.2⟩

/-- C9 fails in its consequence: the string HTTP://example.com passes
isValidUrl (the URL constructor lowercases the scheme to http:), the
shorten handler stores it verbatim, and since the redirect path's
startsWith checks are case sensitive, the stored originalUrl triggers the
prepend-https branch, producing https://HTTP://example.com — the branch
is reachable for mappings created via shorten. -/
theorem c9_counterexample :
    isValidUrl ("HTTP://example.com") = true ∧
    (POSTshorten 0 ("abc") (ShortenBody.urlStr ("HTTP://example.com"))
        { urls := [], analytics := [] } true true).1.status = 200 ∧
    (alookup (POSTshorten 0 ("abc")
        (ShortenBody.urlStr ("HTTP://example.com"))
        { urls := [], analytics := [] } true true).2.urls ("abc")).map
      UrlData.originalUrl = some ("HTTP://example.com") ∧
    strStartsWith ("HTTP://example.com") ("http://") = false ∧
    strStartsWith ("HTTP://example.com") ("https://") = false ∧
    normalizeRedirectUrl ("HTTP://example.com") =
      ("https://HTTP://example.com") := by
  refine ⟨by decide, by decide, by decide, by decide, by decide, by decide⟩

/-- C9 amended: the shorten endpoint rejects with status 400, before any
write, every request whose url is missing, not a string, empty, or fails
the http/https URL validation; but an accepted URL need not literally
start with lowercase http:// or https://, so the redirect path's
prepend-https branch remains reachable for mappings created via
shorten. -/
theorem c9_theorem (now : Nat) (generated : String) (s : Store)
    (uOk aOk : Bool) (u : String) :
    POSTshorten now generated ShortenBody.missing s uOk aOk =
      ({ status := 400, error := some ("URL is required"),
         shortCode := none, originalUrl := none }, s) ∧
    POSTshorten now generated ShortenBody.notAString s uOk aOk =
      ({ status := 400, error := some ("URL is required"),
         shortCode := none, originalUrl := none }, s) ∧
    POSTshorten now generated (ShortenBody.urlStr ("")) s uOk aOk =
      ({ status := 400, error := some ("URL is required"),
         shortCode := none, originalUrl := none }, s) ∧
    (u ≠ ("") → isValidUrl u = false →
      POSTshorten now generated (ShortenBody.urlStr u) s uOk aOk =
        ({ status := 400, error := some ("Invalid URL format"),
           shortCode := none, originalUrl := none }, s)) := by
  refine ⟨rfl, rfl, rfl, ?_⟩
  intro hne hval
  unfold POSTshorten
  simp [hne, hval]

/-- Witness for C9 amended: a scheme-less URL is rejected with 400 and no
write against the consistent store. -/
theorem c9_witness :
    isValidUrl ("example.com/path") = false ∧
    POSTshorten 0 ("abc") (ShortenBody.urlStr ("example.com/path"))
        exStore true true =
      ({ status := 400, error := some ("Invalid URL format"),
         shortCode := none, originalUrl := none }, exStore) := by
  have h := (c9_theorem 0 ("abc") exStore true true
    ("example.com/path")).2.2.2 (by decide) (by decide)
  exact ⟨by decide, h⟩

/-- C7 fails as stated: drive the subscription with a transport error
(scheduling the two-second retry and detaching the errored listener),
then invoke the caller's unsubscribe handle, then let the retry fire and
deliver a snapshot to the replacement listener it registered: one
callback fires after unsubscribe, because the retry's own unsubscribe
handle was discarded inside setTimeout. -/
theorem c7_counterexample :
    (runFeed [FeedAction.errorMain 0, FeedAction.unsubscribeHandle,
      FeedAction.retryTimer,
      FeedAction.snapshotMain 1 true false]).firedAfterUnsub = 1 := by
  decide

/-- Actions that spawn no listener outside the caller's control and are
not the caller's unsubscribe: any snapshot without pending local writes,
any confirmation delivery, any retry tick (vacuous while no retry is
scheduled); excluded are transport errors and pending-write snapshots. -/
def preUnsubOk : FeedAction → Bool
  | FeedAction.errorMain _ => false
  | FeedAction.snapshotMain _ hasData pending => !(hasData && pending)
  | FeedAction.unsubscribeHandle => false
  | _ => true

/-- Before the caller unsubscribes and while no retry or confirmation
listener has been spawned: only the original listener 0 can be live, no
retry is pending, and nothing has fired after an unsubscribe. -/
def quietInv (s : FeedState) : Prop :=
  (s.mains = [] ∨ s.mains = [0]) ∧ s.confirms = [] ∧ s.retries = 0 ∧
    s.unsubbed = false ∧ s.firedAfterUnsub = 0

/-- After the unsubscribe in a quiet run: no listener of any kind is
live, no retry is pending, and the after-unsubscribe callback count is
frozen. -/
def deadInv (s : FeedState) : Prop :=
  s.mains = [] ∧ s.confirms = [] ∧ s.retries = 0 ∧ s.firedAfterUnsub = 0

theorem stepFeed_quiet (s : FeedState) (a : FeedAction)
    (hq : quietInv s) (ha : preUnsubOk a = true) :
    quietInv (stepFeed s a) := by
  obtain ⟨hm, hc, hr, hu, hf⟩ := hq
  cases a with
  | snapshotMain id hasData pending =>
    have hnp : (hasData && pending) = false := by
      cases hasData <;> cases pending <;> simp_all [preUnsubOk]
    by_cases hmem : id ∈ s.mains
    · simp [stepFeed, hmem, hnp, fireCallback, quietInv, hm, hc, hr, hu, hf]
    · simp [stepFeed, hmem, quietInv, hm, hc, hr, hu, hf]
  | snapshotConfirm id hasData pending =>
    simp [stepFeed, hc, quietInv, hm, hr, hu, hf]
  | errorMain id => simp [preUnsubOk] at ha
  | retryTimer => simp [stepFeed, hr, quietInv, hm, hc, hu, hf]
  | unsubscribeHandle => simp [preUnsubOk] at ha

theorem stepFeed_dead (s : FeedState) (a : FeedAction) (hd : deadInv s) :
    deadInv (stepFeed s a) := by
  obtain ⟨hm, hc, hr, hf⟩ := hd
  cases a with
  | snapshotMain id hasData pending =>
    simp [stepFeed, hm, deadInv, hc, hr, hf]
  | snapshotConfirm id hasData pending =>
    simp [stepFeed, hc, deadInv, hm, hr, hf]
  | errorMain id => simp [stepFeed, hm, deadInv, hc, hr, hf]
  | retryTimer => simp [stepFeed, hr, deadInv, hm, hc, hf]
  | unsubscribeHandle => simp [stepFeed, deadInv, hm, hc, hr, hf]

theorem foldl_quiet (acts : List FeedAction) (s : FeedState)
    (hq : quietInv s) (ha : ∀ a ∈ acts, preUnsubOk a = true) :
    quietInv (List.foldl stepFeed s acts) := by
  induction acts generalizing s with
  | nil => exact hq
  | cons a t ih =>
    exact ih (stepFeed s a)
      (stepFeed_quiet s a hq (ha a (by simp)))
      (fun b hb => ha b (by simp [hb]))

theorem foldl_dead (acts : List FeedAction) (s : FeedState)
    (hd : deadInv s) : deadInv (List.foldl stepFeed s acts) := by
  induction acts generalizing s with
  | nil => exact hd
  | cons a t ih => exact ih (stepFeed s a) (stepFeed_dead s a hd)

theorem unsub_of_quiet (s : FeedState) (hq : quietInv s) :
    deadInv (stepFeed s FeedAction.unsubscribeHandle) := by
  obtain ⟨hm, hc, hr, hu, hf⟩ := hq
  cases hm with
  | inl h => simp [stepFeed, deadInv, h, hc, hr, hf]
  | inr h => simp [stepFeed, deadInv, h, hc, hr, hf]

/-- C7 amended: the returned unsubscribe does silence the listener it
governs — in any run whose actions before the unsubscribe include no
transport error and no pending-write snapshot (so no replacement or
confirmation listener was spawned), no callback whatsoever fires after
the unsubscribe, whatever happens afterwards.  The guarantee fails in
general because the error-retry path and the pending-write confirmation
path register listeners whose unsubscribe handles the caller never
receives. -/
theorem c7_theorem (pre post : List FeedAction)
    (hpre : ∀ a ∈ pre, preUnsubOk a = true) :
    (runFeed (pre ++ FeedAction.unsubscribeHandle :: post)).firedAfterUnsub
      = 0 := by
  unfold runFeed
  rw [List.foldl_append, List.foldl_cons]
  have hq : quietInv (List.foldl stepFeed initFeed pre) :=
    foldl_quiet pre initFeed
      ⟨Or.inr rfl, rfl, rfl, rfl, rfl⟩ hpre
  have hd := unsub_of_quiet (List.foldl stepFeed initFeed pre) hq
  exact (foldl_dead post _ hd).2.2.2

/-- Witness for C7 amended: a quiet snapshot, then unsubscribe, then a
further snapshot and a retry tick fire nothing after the unsubscribe. -/
theorem c7_witness :
    preUnsubOk (FeedAction.snapshotMain 0 true false) = true ∧
    (runFeed ([FeedAction.snapshotMain 0 true false] ++
      FeedAction.unsubscribeHandle ::
        [FeedAction.snapshotMain 0 true false,
         FeedAction.retryTimer])).firedAfterUnsub = 0 :=
  ⟨by decide, c7_theorem [FeedAction.snapshotMain 0 true false]
    [FeedAction.snapshotMain 0 true false, FeedAction.retryTimer]
    (by decide)⟩

end UrlShortener
